import Mathlib

/-!
# Array/texture bridge of `src/python/render.cpp`

A shallow embedding of the marshaling helpers of the rendering bindings
(`interpret_dlpack_dtype`, `shader_set_buffer`, `texture_download`,
`texture_upload`, `texture_upload_sub_region`) and the properties of the
specification that concern them.

Conventions of the embedding:

* `size_t` values are natural numbers below `2 ^ 64`; a `size_t` sum or
  product is reduced modulo `2 ^ 64`.
* `Vector2i` components are integers (`int32_t` in the program).
* a C++ `throw` leaves the object passed by reference untouched, so every
  operation returns the pair of its outcome and the state of the engine
  object after the call.
* the rendering engine (`Texture`, `Shader`) is not part of the file: its
  primitives are parameters of the embedding.
-/

namespace Render

/-! ## Machine integers -/

/-- The number of values of a `size_t` (64-bit unsigned). -/
def SIZE_MOD : Nat := 2 ^ 64

/-- The conversion `(size_t) v` of a signed integer: reduction modulo `2 ^ 64`. -/
def to_size_t (v : Int) : Nat := (v % (2 ^ 64 : Int)).toNat

/-- The conversion `(int32_t) n` of a `size_t`: the low 32 bits, read as a
two's complement number. -/
def to_int32 (n : Nat) : Int :=
  if n % 2 ^ 32 < 2 ^ 31 then ((n % 2 ^ 32 : Nat) : Int)
  else ((n % 2 ^ 32 : Nat) : Int) - (2 ^ 32 : Int)

/-- Addition of two `size_t` values. -/
def add64 (a b : Nat) : Nat := (a + b) % SIZE_MOD

/-- Multiplication of two `size_t` values. -/
def mul64 (a b : Nat) : Nat := (a * b) % SIZE_MOD

/-! ## Data model -/

/-- Modelled from the spec: the `VariableType` enumeration of the engine
(section 3, "Typed Scalar Kind"): signed and unsigned integers of 8/16/32/64
bits, floating point of 16/32/64 bits, and the `Invalid` sentinel. Its
declaration is in an engine header that is not part of the source. -/
inductive VariableType where
  | Invalid
  | Int8
  | UInt8
  | Int16
  | UInt16
  | Int32
  | UInt32
  | Int64
  | UInt64
  | Float16
  | Float32
  | Float64
  deriving DecidableEq, Repr

/-- The `Texture::ComponentFormat` enumeration: the eight values registered
by `register_render`. -/
inductive ComponentFormat where
  | UInt8
  | Int8
  | UInt16
  | Int16
  | UInt32
  | Int32
  | Float16
  | Float32
  deriving DecidableEq, Repr

/-- Modelled from the spec: the cast `(VariableType) texture.component_format()`.
The enumerators' numeric values are declared in the engine header, which is
not part of the source; section 4.4 compares the array's scalar kind with the
component format of the same name. -/
def ComponentFormat.toVariableType : ComponentFormat → VariableType
  | .UInt8 => .UInt8
  | .Int8 => .Int8
  | .UInt16 => .UInt16
  | .Int16 => .Int16
  | .UInt32 => .UInt32
  | .Int32 => .Int32
  | .Float16 => .Float16
  | .Float32 => .Float32

/-- The type codes of `nb::dlpack::dtype_code` (the DLPack standard's
numbering); `dtype.code` is a `uint8_t` holding one of them. -/
def dtype_code.Int : Nat := 0

/-- See `dtype_code.Int`. -/
def dtype_code.UInt : Nat := 1

/-- See `dtype_code.Int`. -/
def dtype_code.Float : Nat := 2

/-- See `dtype_code.Int`. -/
def dtype_code.Bfloat : Nat := 4

/-- See `dtype_code.Int`. -/
def dtype_code.Complex : Nat := 5

/-- See `dtype_code.Int`. -/
def dtype_code.Bool : Nat := 6

/-- The descriptor `nb::dlpack::dtype`: type code, bit width, lanes. -/
structure dtype where
  code : Nat
  bits : Nat
  lanes : Nat
  deriving DecidableEq, Repr

/-- The C++ scalar types that `texture_download` passes to `nb::dtype<T>()`. -/
inductive CType where
  | int8_t
  | uint8_t
  | int16_t
  | uint16_t
  | int32_t
  | uint32_t
  | float
  deriving DecidableEq, Repr

/-- The descriptor `nb::dtype<T>()`: float code for a floating point type,
signed or unsigned integer code otherwise, `sizeof(T) * 8` bits, one lane. -/
def nb_dtype : CType → dtype
  | .int8_t => ⟨dtype_code.Int, 8, 1⟩
  | .uint8_t => ⟨dtype_code.UInt, 8, 1⟩
  | .int16_t => ⟨dtype_code.Int, 16, 1⟩
  | .uint16_t => ⟨dtype_code.UInt, 16, 1⟩
  | .int32_t => ⟨dtype_code.Int, 32, 1⟩
  | .uint32_t => ⟨dtype_code.UInt, 32, 1⟩
  | .float => ⟨dtype_code.Float, 32, 1⟩

/-- The bytes a data pointer refers to. -/
abbrev Bytes := List Nat

/-- A two-component integer vector (`Vector2i`). -/
structure Vector2i where
  x : Int
  y : Int
  deriving DecidableEq, Repr

/-- An array view `nb::ndarray<nb::device::cpu, nb::c_contig>`: element
descriptor, extents and the bytes behind `data()`. -/
structure ndarray where
  dtype : dtype
  shape_ : List Nat
  data : Bytes
  deriving DecidableEq, Repr

/-- The rank `array.ndim()`. -/
def ndarray.ndim (a : ndarray) : Nat := a.shape_.length

/-- The extent `array.shape(i)`; the program reads it only for `i < ndim()`. -/
def ndarray.shape (a : ndarray) (i : Nat) : Nat := a.shape_.getD i 0

/-- The exceptions the bridge throws, with their messages. -/
inductive Exception where
  | type_error (msg : String)
  | runtime_error (msg : String)
  deriving DecidableEq, Repr

deriving instance DecidableEq for Except

/-- The outcome of a bridge call that returns `void`: `ok ()` when it returns,
`error e` when it throws `e`. -/
abbrev Outcome := Except Exception Unit

/-! ## `interpret_dlpack_dtype` -/

/-- The function `interpret_dlpack_dtype` (lines 7-43): a switch over the type
code with an inner switch over the bit width; every path that returns nothing
falls through to `VariableType::Invalid`. -/
def interpret_dlpack_dtype (dt : dtype) : VariableType :=
  if dt.code = dtype_code.Int then
    if dt.bits = 8 then .Int8
    else if dt.bits = 16 then .Int16
    else if dt.bits = 32 then .Int32
    else if dt.bits = 64 then .Int64
    else .Invalid
  else if dt.code = dtype_code.UInt then
    if dt.bits = 8 then .UInt8
    else if dt.bits = 16 then .UInt16
    else if dt.bits = 32 then .UInt32
    else if dt.bits = 64 then .UInt64
    else .Invalid
  else if dt.code = dtype_code.Float then
    if dt.bits = 16 then .Float16
    else if dt.bits = 32 then .Float32
    else if dt.bits = 64 then .Float64
    else .Invalid
  else .Invalid

/-! ## The engine, as a parameter -/

/-- The primitives of the engine's `Shader` that the bridge calls, over an
arbitrary type `σ` of shader states. `set_buffer` receives the slot name, the
scalar kind, the rank, the three extents and the bytes behind the pointer. -/
structure ShaderEngine (σ : Type) where
  set_buffer : σ → String → VariableType → Nat → List Nat → Bytes → σ

/-- The primitives of the engine's `Texture` (and its free function
`type_name`) that the bridge calls, over an arbitrary type `τ` of texture
states. `download` gives the bytes the engine writes through the pointer;
`upload_sub_region` receives the bytes, the origin and the extent. -/
structure TextureEngine (τ : Type) where
  component_format : τ → ComponentFormat
  size : τ → Vector2i
  channels : τ → Nat
  type_name : VariableType → String
  download : τ → Bytes
  upload : τ → Bytes → τ
  upload_sub_region : τ → Bytes → Vector2i → Vector2i → τ

/-! ## `shader_set_buffer` -/

/-- The function `shader_set_buffer` (lines 45-63). -/
def shader_set_buffer {σ : Type} (E : ShaderEngine σ) (shader : σ) (name : String)
    (array : ndarray) : Outcome × σ :=
  if array.ndim > 3 then
    (.error (.type_error "Shader::set_buffer(): number of array dimensions must be < 3!"),
      shader)
  else
    let dtype := interpret_dlpack_dtype array.dtype
    if dtype = VariableType.Invalid then
      (.error (.type_error "Shader::set_buffer(): unsupported array dtype!"), shader)
    else
      let dim : List Nat :=
        [ if array.ndim > 0 then array.shape 0 else 1,
          if array.ndim > 1 then array.shape 1 else 1,
          if array.ndim > 2 then array.shape 2 else 1 ]
      (.ok (), E.set_buffer shader name dtype array.ndim dim array.data)

/-! ## `texture_download` -/

/-- What `texture_download` produces: the operand of `new uint8_t[...]` and
the array it returns. -/
structure Download where
  allocated : Nat
  array : ndarray
  deriving DecidableEq, Repr

/-- The switch of `texture_download` (lines 68-78) that chooses the descriptor
`dt`. `ComponentFormat` has the eight enumerators below and no other, so the
`default:` branch, which throws, is taken by none of its values. -/
def download_dtype : ComponentFormat → dtype
  | .Int8 => nb_dtype .int8_t
  | .UInt8 => nb_dtype .uint8_t
  | .Int16 => nb_dtype .int16_t
  | .UInt16 => nb_dtype .uint16_t
  | .Int32 => nb_dtype .int32_t
  | .UInt32 => nb_dtype .uint32_t
  | .Float16 => { nb_dtype .float with bits := 16 }
  | .Float32 => nb_dtype .float

/-- The function `texture_download` (lines 65-94): the descriptor, the three
extents, the allocation of `shape[0] * shape[1] * shape[2] * dt.bits / 8`
bytes (a `size_t` expression) and the read-back into them. -/
def texture_download {τ : Type} (E : TextureEngine τ) (texture : τ) : Download :=
  let dt := download_dtype (E.component_format texture)
  let shape : List Nat :=
    [ to_size_t (E.size texture).y,
      to_size_t (E.size texture).x,
      E.channels texture ]
  let count :=
    mul64 (mul64 (mul64 (shape.getD 0 0) (shape.getD 1 0)) (shape.getD 2 0)) dt.bits / 8
  { allocated := count
    array := { dtype := dt, shape_ := shape, data := E.download texture } }

/-! ## `texture_upload` -/

/-- The function `texture_upload` (lines 96-119). -/
def texture_upload {τ : Type} (E : TextureEngine τ) (texture : τ) (array : ndarray) :
    Outcome × τ :=
  let n_channels := if array.ndim = 3 then array.shape 2 else 1
  let dtype := interpret_dlpack_dtype array.dtype
  let dtype_texture := (E.component_format texture).toVariableType
  if array.ndim ≠ 2 ∧ array.ndim ≠ 3 then
    (.error (.runtime_error "Texture::upload(): expected a 2 or 3-dimensional array!"),
      texture)
  else if array.shape 0 ≠ to_size_t (E.size texture).y ∨
      array.shape 1 ≠ to_size_t (E.size texture).x then
    (.error (.runtime_error "Texture::upload(): array size does not match the texture!"),
      texture)
  else if n_channels ≠ E.channels texture then
    (.error (.runtime_error
      ("Texture::upload(): number of color channels in array (" ++
        toString n_channels ++ ") does not match the texture (" ++
        toString (E.channels texture) ++ ")!")), texture)
  else if dtype ≠ dtype_texture then
    (.error (.runtime_error
      ("Texture::upload(): dtype of array (" ++
        E.type_name dtype ++ ") does not match the texture (" ++
        E.type_name dtype_texture ++ ")!")), texture)
  else
    (.ok (), E.upload texture array.data)

/-! ## `texture_upload_sub_region` -/

/-- The function `texture_upload_sub_region` (lines 121-148). The bounds test
adds `(size_t) origin.x()` to `array.shape(0)` and `(size_t) origin.y()` to
`array.shape(1)` in `size_t` arithmetic; the extent handed to the engine is
`{ (int32_t) array.shape(0), (int32_t) array.shape(1) }`. -/
def texture_upload_sub_region {τ : Type} (E : TextureEngine τ) (texture : τ)
    (array : ndarray) (origin : Vector2i) : Outcome × τ :=
  let n_channels := if array.ndim = 3 then array.shape 2 else 1
  let dtype := interpret_dlpack_dtype array.dtype
  let dtype_texture := (E.component_format texture).toVariableType
  if array.ndim ≠ 2 ∧ array.ndim ≠ 3 then
    (.error (.runtime_error
      "Texture::upload_sub_region(): expected a 2 or 3-dimensional array!"), texture)
  else if add64 (array.shape 0) (to_size_t origin.x) > to_size_t (E.size texture).y ∨
      add64 (array.shape 1) (to_size_t origin.y) > to_size_t (E.size texture).x then
    (.error (.runtime_error
      "Texture::upload_sub_region(): bounds exceed the size of the texture!"), texture)
  else if n_channels ≠ E.channels texture then
    (.error (.runtime_error
      ("Texture::upload_sub_region(): number of color channels in array (" ++
        toString n_channels ++ ") does not match the texture (" ++
        toString (E.channels texture) ++ ")!")), texture)
  else if dtype ≠ dtype_texture then
    (.error (.runtime_error
      ("Texture::upload_sub_region(): dtype of array (" ++
        E.type_name dtype ++ ") does not match the texture (" ++
        E.type_name dtype_texture ++ ")!")), texture)
  else
    (.ok (),
      E.upload_sub_region texture array.data origin
        ⟨to_int32 (array.shape 0), to_int32 (array.shape 1)⟩)

/-! ## Ranges of the inputs -/

/-- Both components of a `Vector2i` are `int32_t` values. -/
def Vector2i.int32 (v : Vector2i) : Prop :=
  -(2 ^ 31 : Int) ≤ v.x ∧ v.x < 2 ^ 31 ∧ -(2 ^ 31 : Int) ≤ v.y ∧ v.y < 2 ^ 31

instance (v : Vector2i) : Decidable v.int32 := by
  unfold Vector2i.int32; infer_instance

/-- Both components of a `Vector2i` are non-negative. -/
def Vector2i.nonneg (v : Vector2i) : Prop := 0 ≤ v.x ∧ 0 ≤ v.y

instance (v : Vector2i) : Decidable v.nonneg := by
  unfold Vector2i.nonneg; infer_instance

/-- A texture's extent: `size()` is a `Vector2i` whose components, a width and
a height, are non-negative `int32_t` values. -/
def TextureEngine.extent_ok {τ : Type} (E : TextureEngine τ) (texture : τ) : Prop :=
  (E.size texture).int32 ∧ (E.size texture).nonneg

instance {τ : Type} (E : TextureEngine τ) (texture : τ) : Decidable (E.extent_ok texture) := by
  unfold TextureEngine.extent_ok; infer_instance

/-- An array view's extents: the array protocol (DLPack) stores each extent as
a non-negative `int64_t`, which `shape(i)` converts to `size_t`. -/
def ndarray.extents_ok (a : ndarray) : Prop := ∀ n ∈ a.shape_, n < 2 ^ 63

instance (a : ndarray) : Decidable a.extents_ok := by
  unfold ndarray.extents_ok; infer_instance

/-! ## Concrete engines -/

/-- Names of the scalar kinds for the messages of the concrete engines below
(the engine's own `type_name` is not part of the source). -/
def kind_name : VariableType → String
  | .Invalid => "invalid"
  | .Int8 => "int8"
  | .UInt8 => "uint8"
  | .Int16 => "int16"
  | .UInt16 => "uint16"
  | .Int32 => "int32"
  | .UInt32 => "uint32"
  | .Int64 => "int64"
  | .UInt64 => "uint64"
  | .Float16 => "float16"
  | .Float32 => "float32"
  | .Float64 => "float64"

/-- Modelled from the spec: a GPU texture (section 3): fixed component format,
fixed 2D extent, fixed channel count, and its backing store of bytes. The
engine's `Texture` class is not part of the source. -/
structure Texture where
  component_format : ComponentFormat
  size : Vector2i
  channels : Nat
  contents : Bytes
  deriving DecidableEq, Repr

/-- Modelled from the spec: the engine as a byte store. `download` reads the
backing store, `upload` overwrites it (section 4.4: "copy the full buffer
contents into the texture's backing store"). The spec does not say how a
sub-region is written into the store, so that primitive stays a parameter. -/
def byteStore (blit : Texture → Bytes → Vector2i → Vector2i → Texture) :
    TextureEngine Texture where
  component_format := fun t => t.component_format
  size := fun t => t.size
  channels := fun t => t.channels
  type_name := kind_name
  download := fun t => t.contents
  upload := fun t data => { t with contents := data }
  upload_sub_region := blit

/-- A call of one of the engine's texture mutators, with its arguments. -/
inductive TextureCall where
  | upload (data : Bytes)
  | upload_sub_region (data : Bytes) (origin : Vector2i) (extent : Vector2i)
  deriving DecidableEq, Repr

/-- A texture of the recording engine: the fixed attributes, the bytes a
read-back yields, and the mutator calls received so far, oldest first. -/
structure TracedTexture where
  component_format : ComponentFormat
  size : Vector2i
  channels : Nat
  pixels : Bytes
  calls : List TextureCall
  deriving DecidableEq, Repr

/-- The recording engine: every mutator call is appended to `calls` with the
arguments it received. -/
def traced : TextureEngine TracedTexture where
  component_format := fun t => t.component_format
  size := fun t => t.size
  channels := fun t => t.channels
  type_name := kind_name
  download := fun t => t.pixels
  upload := fun t data => { t with calls := t.calls ++ [.upload data] }
  upload_sub_region := fun t data origin extent =>
    { t with calls := t.calls ++ [.upload_sub_region data origin extent] }

/-- A call of `Shader::set_buffer`, with its arguments. -/
structure SetBufferCall where
  name : String
  dtype : VariableType
  ndim : Nat
  dim : List Nat
  data : Bytes
  deriving DecidableEq, Repr

/-- The recording shader engine: its state is the list of `set_buffer` calls
received so far, oldest first. -/
def tracedShader : ShaderEngine (List SetBufferCall) where
  set_buffer := fun s name dtype ndim dim data => s ++ [⟨name, dtype, ndim, dim, data⟩]

/-! ## The specification's tables -/

/-- The table of section 4.1 of the specification, row by row: type code, bit
width, resulting scalar kind. -/
def dtype_table : List (Nat × Nat × VariableType) :=
  [ (dtype_code.Int, 8, .Int8), (dtype_code.Int, 16, .Int16),
    (dtype_code.Int, 32, .Int32), (dtype_code.Int, 64, .Int64),
    (dtype_code.UInt, 8, .UInt8), (dtype_code.UInt, 16, .UInt16),
    (dtype_code.UInt, 32, .UInt32), (dtype_code.UInt, 64, .UInt64),
    (dtype_code.Float, 16, .Float16), (dtype_code.Float, 32, .Float32),
    (dtype_code.Float, 64, .Float64) ]

/-- The bit width `bits(X)` of a component format, as the specification names
the formats. -/
def component_bits : ComponentFormat → Nat
  | .UInt8 => 8
  | .Int8 => 8
  | .UInt16 => 16
  | .Int16 => 16
  | .UInt32 => 32
  | .Int32 => 32
  | .Float16 => 16
  | .Float32 => 32

/-- The type code of a component format's logical kind: signed integer,
unsigned integer or float. -/
def component_code : ComponentFormat → Nat
  | .UInt8 => dtype_code.UInt
  | .Int8 => dtype_code.Int
  | .UInt16 => dtype_code.UInt
  | .Int16 => dtype_code.Int
  | .UInt32 => dtype_code.UInt
  | .Int32 => dtype_code.Int
  | .Float16 => dtype_code.Float
  | .Float32 => dtype_code.Float

/-- The acceptance condition of the full upload, in the words of section 4.4:
rank 2 or 3, the first two extents equal to (height, width), the channel count
(1 for rank 2) equal to the texture's, the translated scalar kind equal to the
component format. -/
def upload_accepts {τ : Type} (E : TextureEngine τ) (texture : τ) (array : ndarray) : Prop :=
  (array.ndim = 2 ∨ array.ndim = 3) ∧
  (array.shape 0 : Int) = (E.size texture).y ∧
  (array.shape 1 : Int) = (E.size texture).x ∧
  (if array.ndim = 3 then array.shape 2 else 1) = E.channels texture ∧
  interpret_dlpack_dtype array.dtype = (E.component_format texture).toVariableType

instance {τ : Type} (E : TextureEngine τ) (texture : τ) (array : ndarray) :
    Decidable (upload_accepts E texture array) := by
  unfold upload_accepts; infer_instance

/-! ## Concrete inputs -/

/-- A texture of the recording engine: 4 wide, 2 high, three UInt8 channels. -/
def sampleTexture : TracedTexture :=
  { component_format := .UInt8, size := ⟨4, 2⟩, channels := 3, pixels := [], calls := [] }

/-- A `uint8` array of shape (2, 4, 3): the full extent of `sampleTexture`. -/
def sampleArray : ndarray :=
  { dtype := nb_dtype .uint8_t, shape_ := [2, 4, 3], data := List.replicate 24 7 }

/-- A `uint8` array of shape (1, 2, 3): one row, two columns. -/
def sampleRegion : ndarray :=
  { dtype := nb_dtype .uint8_t, shape_ := [1, 2, 3], data := List.replicate 6 7 }

/-- A texture of the recording engine: 10 wide, 2 high, one UInt8 channel. -/
def wideTexture : TracedTexture :=
  { component_format := .UInt8, size := ⟨10, 2⟩, channels := 1, pixels := [], calls := [] }

/-- A `uint8` array of shape (1, 1): a single one-channel pixel. -/
def onePixel : ndarray :=
  { dtype := nb_dtype .uint8_t, shape_ := [1, 1], data := [7] }

/-- A texture of the recording engine: 3 wide, 2 high, four Float16 channels. -/
def halfTexture : TracedTexture :=
  { component_format := .Float16, size := ⟨3, 2⟩, channels := 4,
    pixels := List.replicate 48 9, calls := [] }

/-! ## Auxiliary facts on the machine integers -/

theorem to_size_t_of_nonneg {v : Int} (h0 : 0 ≤ v) (h1 : v < 2 ^ 64) :
    to_size_t v = v.toNat := by
  unfold to_size_t
  rw [Int.emod_eq_of_lt h0 h1]

theorem to_size_t_cast {v : Int} (h0 : 0 ≤ v) (h1 : v < 2 ^ 64) :
    ((to_size_t v : Nat) : Int) = v := by
  rw [to_size_t_of_nonneg h0 h1, Int.toNat_of_nonneg h0]

theorem eq_to_size_t_iff {v : Int} (n : Nat) (h0 : 0 ≤ v) (h1 : v < 2 ^ 64) :
    n = to_size_t v ↔ (n : Int) = v := by
  constructor
  · intro h
    rw [h, to_size_t_cast h0 h1]
  · intro h
    have h2 := to_size_t_cast h0 h1
    omega

theorem toVariableType_ne_Invalid (f : ComponentFormat) :
    f.toVariableType ≠ VariableType.Invalid := by
  cases f <;> simp [ComponentFormat.toVariableType]

/-! ## C1: the scalar-kind translator -/

/-- C1: `interpret_dlpack_dtype` equals the table of section 4.1 on every
input: a descriptor whose (code, bits) pair is a row of the table is translated
to the kind of that row, and a descriptor whose pair is in no row, whatever
its code and bit width, is translated to `Invalid`. -/
theorem interpret_dlpack_dtype_table (dt : dtype) :
    (∀ k, (dt.code, dt.bits, k) ∈ dtype_table → interpret_dlpack_dtype dt = k) ∧
    ((∀ k, (dt.code, dt.bits, k) ∉ dtype_table) → interpret_dlpack_dtype dt = .Invalid) := by
  constructor
  · intro k hk
    simp only [dtype_table, List.mem_cons, Prod.mk.injEq, List.mem_singleton,
      List.mem_nil_iff, or_false] at hk
    rcases hk with h | h | h | h | h | h | h | h | h | h | h <;>
      obtain ⟨hc, hb, rfl⟩ := h <;>
      simp [interpret_dlpack_dtype, hc, hb, dtype_code.Int, dtype_code.UInt, dtype_code.Float]
  · intro h
    have hI8 := h .Int8
    have hI16 := h .Int16
    have hI32 := h .Int32
    have hI64 := h .Int64
    have hU8 := h .UInt8
    have hU16 := h .UInt16
    have hU32 := h .UInt32
    have hU64 := h .UInt64
    have hF16 := h .Float16
    have hF32 := h .Float32
    have hF64 := h .Float64
    simp only [dtype_table, List.mem_cons, Prod.mk.injEq, List.mem_singleton,
      List.mem_nil_iff, or_false] at hI8 hI16 hI32 hI64 hU8 hU16 hU32 hU64 hF16 hF32 hF64
    unfold interpret_dlpack_dtype
    split_ifs <;> simp_all

/-- C1, at concrete descriptors: a signed 16-bit integer, a 16-bit float, a
64-bit unsigned integer, and three pairs outside the table (an 8-bit bool, a
128-bit float, a 24-bit signed integer). -/
theorem interpret_dlpack_dtype_table_witness :
    interpret_dlpack_dtype ⟨dtype_code.Int, 16, 1⟩ = .Int16 ∧
    interpret_dlpack_dtype ⟨dtype_code.Float, 16, 1⟩ = .Float16 ∧
    interpret_dlpack_dtype ⟨dtype_code.UInt, 64, 1⟩ = .UInt64 ∧
    interpret_dlpack_dtype ⟨dtype_code.Bool, 8, 1⟩ = .Invalid ∧
    interpret_dlpack_dtype ⟨dtype_code.Float, 128, 1⟩ = .Invalid ∧
    interpret_dlpack_dtype ⟨dtype_code.Int, 24, 1⟩ = .Invalid :=
  ⟨(interpret_dlpack_dtype_table ⟨dtype_code.Int, 16, 1⟩).1 _ (by decide),
   (interpret_dlpack_dtype_table ⟨dtype_code.Float, 16, 1⟩).1 _ (by decide),
   (interpret_dlpack_dtype_table ⟨dtype_code.UInt, 64, 1⟩).1 _ (by decide),
   (interpret_dlpack_dtype_table ⟨dtype_code.Bool, 8, 1⟩).2
     (by intro k; cases k <;> decide),
   (interpret_dlpack_dtype_table ⟨dtype_code.Float, 128, 1⟩).2
     (by intro k; cases k <;> decide),
   (interpret_dlpack_dtype_table ⟨dtype_code.Int, 24, 1⟩).2
     (by intro k; cases k <;> decide)⟩

/-! ## C2: the full upload -/

theorem extent_ok_bounds {τ : Type} {E : TextureEngine τ} {texture : τ}
    (hw : E.extent_ok texture) :
    (0 ≤ (E.size texture).x ∧ (E.size texture).x < 2 ^ 31) ∧
    (0 ≤ (E.size texture).y ∧ (E.size texture).y < 2 ^ 31) := by
  obtain ⟨⟨_, hx, _, hy⟩, hx0, hy0⟩ := hw
  exact ⟨⟨hx0, hx⟩, ⟨hy0, hy⟩⟩

/-- The outcome of `texture_upload`, by the tests of the program: it returns
after `Texture::upload` when none of the four tests fires, and throws with the
texture untouched otherwise. -/
theorem texture_upload_cases {τ : Type} (E : TextureEngine τ) (texture : τ)
    (array : ndarray) :
    ((array.ndim = 2 ∨ array.ndim = 3) ∧
      array.shape 0 = to_size_t (E.size texture).y ∧
      array.shape 1 = to_size_t (E.size texture).x ∧
      (if array.ndim = 3 then array.shape 2 else 1) = E.channels texture ∧
      interpret_dlpack_dtype array.dtype = (E.component_format texture).toVariableType ∧
      texture_upload E texture array = (.ok (), E.upload texture array.data)) ∨
    (¬ ((array.ndim = 2 ∨ array.ndim = 3) ∧
      array.shape 0 = to_size_t (E.size texture).y ∧
      array.shape 1 = to_size_t (E.size texture).x ∧
      (if array.ndim = 3 then array.shape 2 else 1) = E.channels texture ∧
      interpret_dlpack_dtype array.dtype = (E.component_format texture).toVariableType) ∧
      ∃ e, texture_upload E texture array = (.error e, texture)) := by
  unfold texture_upload
  simp only []
  generalize (if array.ndim = 3 then array.shape 2 else 1) = nc
  split_ifs with h1 h2 h3 h4
  · right
    exact ⟨fun h => by omega, _, rfl⟩
  · right
    refine ⟨fun h => ?_, _, rfl⟩
    rcases h2 with h2 | h2
    · exact h2 h.2.1
    · exact h2 h.2.2.1
  · right
    exact ⟨fun h => h3 h.2.2.2.1, _, rfl⟩
  · right
    exact ⟨fun h => h4 h.2.2.2.2, _, rfl⟩
  · left
    push_neg at h1 h2 h3 h4
    exact ⟨by omega, h2.1, h2.2, h3, h4, rfl⟩

/-- C2: for a texture (extent a non-negative `int32_t` pair) and any array
view, `texture_upload` hands the array to the engine's `upload` if and only if
the rank is 2 or 3, the first two extents equal (height, width), the channel
count (1 for rank 2, the axis-2 extent for rank 3) equals the texture's, and
the translated scalar kind equals the component format; in every other case it
throws, in particular when the descriptor translates to no scalar kind. -/
theorem texture_upload_accepts_iff {τ : Type} (E : TextureEngine τ) (texture : τ)
    (array : ndarray) (hw : E.extent_ok texture) :
    ((texture_upload E texture array).1 = .ok () ↔ upload_accepts E texture array) ∧
    (upload_accepts E texture array →
      texture_upload E texture array = (.ok (), E.upload texture array.data)) ∧
    (¬ upload_accepts E texture array →
      ∃ e, texture_upload E texture array = (.error e, texture)) ∧
    (interpret_dlpack_dtype array.dtype = .Invalid →
      ∃ e, texture_upload E texture array = (.error e, texture)) := by
  obtain ⟨⟨hx0, hx1⟩, ⟨hy0, hy1⟩⟩ := extent_ok_bounds hw
  have hy := eq_to_size_t_iff (array.shape 0) hy0 (by omega)
  have hx := eq_to_size_t_iff (array.shape 1) hx0 (by omega)
  unfold upload_accepts
  rw [← hy, ← hx]
  rcases texture_upload_cases E texture array with h | ⟨hn, e, he⟩
  · obtain ⟨h1, h2, h3, h4, h5, h6⟩ := h
    refine ⟨⟨fun _ => ⟨h1, h2, h3, h4, h5⟩, fun _ => by rw [h6]⟩, fun _ => h6,
      fun hn => ?_, fun hi => ?_⟩
    · exact absurd ⟨h1, h2, h3, h4, h5⟩ hn
    · rw [hi] at h5
      exact absurd h5.symm (toVariableType_ne_Invalid _)
  · refine ⟨⟨fun h => ?_, fun h => absurd h hn⟩, fun h => absurd h hn, fun _ => ⟨e, he⟩,
      fun _ => ⟨e, he⟩⟩
    rw [he] at h
    exact absurd h (by simp)

/-- C2, at concrete inputs: the (2, 4, 3) `uint8` array is handed to the engine
of the 4 x 2 three-channel UInt8 texture; the same array declared `int8`, of
the same byte width, is rejected, and so is the transposed shape (4, 2, 3). -/
theorem texture_upload_accepts_iff_witness :
    texture_upload traced sampleTexture sampleArray =
      (.ok (), traced.upload sampleTexture sampleArray.data) ∧
    (∃ e, texture_upload traced sampleTexture { sampleArray with dtype := nb_dtype .int8_t } =
      (.error e, sampleTexture)) ∧
    (∃ e, texture_upload traced sampleTexture { sampleArray with shape_ := [4, 2, 3] } =
      (.error e, sampleTexture)) :=
  ⟨(texture_upload_accepts_iff traced sampleTexture sampleArray (by decide)).2.1 (by decide),
   (texture_upload_accepts_iff traced sampleTexture _ (by decide)).2.2.1 (by decide),
   (texture_upload_accepts_iff traced sampleTexture _ (by decide)).2.2.1 (by decide)⟩

/-! ## C3: the bounds test of the sub-region upload -/

theorem shape_lt_of_extents_ok {a : ndarray} (ha : a.extents_ok) (i : Nat) :
    a.shape i < 2 ^ 63 := by
  unfold ndarray.shape
  by_cases hi : i < a.shape_.length
  · rw [List.getD_eq_getElem _ _ hi]
    exact ha _ (List.getElem_mem hi)
  · rw [List.getD_eq_default _ _ (by omega)]
    norm_num

theorem to_int32_of_lt {n : Nat} (h : n < 2 ^ 31) : to_int32 n = (n : Int) := by
  unfold to_int32
  have h1 : n % 2 ^ 32 = n := Nat.mod_eq_of_lt (by omega)
  rw [h1, if_pos h]

/-- The bounds test of one axis, for an extent below `2 ^ 63`, a non-negative
`int32_t` origin and a non-negative `int32_t` texture extent: the `size_t` sum
does not wrap, so the test compares the exact sum. -/
theorem bounds_test_exact (n : Nat) (o h : Int) (hn : n < 2 ^ 63)
    (ho0 : 0 ≤ o) (ho1 : o < 2 ^ 31) (hh0 : 0 ≤ h) (hh1 : h < 2 ^ 31) :
    add64 n (to_size_t o) > to_size_t h ↔ o + (n : Int) > h := by
  rw [to_size_t_of_nonneg ho0 (by omega), to_size_t_of_nonneg hh0 (by omega)]
  unfold add64 SIZE_MOD
  rw [Nat.mod_eq_of_lt (by omega)]
  omega

/-- The outcome of `texture_upload_sub_region`, by the tests of the program. -/
theorem texture_upload_sub_region_cases {τ : Type} (E : TextureEngine τ) (texture : τ)
    (array : ndarray) (origin : Vector2i) :
    ((array.ndim = 2 ∨ array.ndim = 3) ∧
      ¬ (add64 (array.shape 0) (to_size_t origin.x) > to_size_t (E.size texture).y ∨
        add64 (array.shape 1) (to_size_t origin.y) > to_size_t (E.size texture).x) ∧
      (if array.ndim = 3 then array.shape 2 else 1) = E.channels texture ∧
      interpret_dlpack_dtype array.dtype = (E.component_format texture).toVariableType ∧
      texture_upload_sub_region E texture array origin =
        (.ok (), E.upload_sub_region texture array.data origin
          ⟨to_int32 (array.shape 0), to_int32 (array.shape 1)⟩)) ∨
    (¬ ((array.ndim = 2 ∨ array.ndim = 3) ∧
      ¬ (add64 (array.shape 0) (to_size_t origin.x) > to_size_t (E.size texture).y ∨
        add64 (array.shape 1) (to_size_t origin.y) > to_size_t (E.size texture).x) ∧
      (if array.ndim = 3 then array.shape 2 else 1) = E.channels texture ∧
      interpret_dlpack_dtype array.dtype = (E.component_format texture).toVariableType) ∧
      ∃ e, texture_upload_sub_region E texture array origin = (.error e, texture)) := by
  unfold texture_upload_sub_region
  simp only []
  generalize (if array.ndim = 3 then array.shape 2 else 1) = nc
  split_ifs with h1 h2 h3 h4
  · right
    exact ⟨fun h => by omega, _, rfl⟩
  · right
    exact ⟨fun h => h.2.1 h2, _, rfl⟩
  · right
    exact ⟨fun h => h3 h.2.2.1, _, rfl⟩
  · right
    exact ⟨fun h => h4 h.2.2.2, _, rfl⟩
  · left
    push_neg at h1 h3 h4
    exact ⟨by omega, h2, h3, h4, rfl⟩

/-- C3: for a texture, an array view of rank 2 or 3 whose channel count and
scalar kind match the texture, and an origin with non-negative coordinates,
`texture_upload_sub_region` throws whenever `origin.x` plus the axis-0 extent
exceeds the texture height or `origin.y` plus the axis-1 extent exceeds the
texture width, and otherwise hands the array, the origin and the extent
(axis-0 extent, axis-1 extent) to the engine; in particular it accepts when
both sums equal the texture size. -/
theorem texture_upload_sub_region_bounds {τ : Type} (E : TextureEngine τ) (texture : τ)
    (array : ndarray) (origin : Vector2i)
    (hw : E.extent_ok texture) (ha : array.extents_ok)
    (hr : array.ndim = 2 ∨ array.ndim = 3)
    (hc : (if array.ndim = 3 then array.shape 2 else 1) = E.channels texture)
    (hk : interpret_dlpack_dtype array.dtype = (E.component_format texture).toVariableType)
    (ho : origin.int32) (hn : origin.nonneg) :
    ((origin.x + (array.shape 0 : Int) > (E.size texture).y ∨
        origin.y + (array.shape 1 : Int) > (E.size texture).x) →
      ∃ e, texture_upload_sub_region E texture array origin = (.error e, texture)) ∧
    (¬ (origin.x + (array.shape 0 : Int) > (E.size texture).y ∨
        origin.y + (array.shape 1 : Int) > (E.size texture).x) →
      texture_upload_sub_region E texture array origin =
        (.ok (), E.upload_sub_region texture array.data origin
          ⟨(array.shape 0 : Int), (array.shape 1 : Int)⟩)) ∧
    ((origin.x + (array.shape 0 : Int) = (E.size texture).y ∧
        origin.y + (array.shape 1 : Int) = (E.size texture).x) →
      (texture_upload_sub_region E texture array origin).1 = .ok ()) := by
  obtain ⟨⟨hx0, hx1⟩, ⟨hy0, hy1⟩⟩ := extent_ok_bounds hw
  obtain ⟨_, hox1, _, hoy1⟩ := ho
  obtain ⟨hox0, hoy0⟩ := hn
  have t0 := bounds_test_exact (array.shape 0) origin.x (E.size texture).y
    (shape_lt_of_extents_ok ha 0) hox0 hox1 hy0 hy1
  have t1 := bounds_test_exact (array.shape 1) origin.y (E.size texture).x
    (shape_lt_of_extents_ok ha 1) hoy0 hoy1 hx0 hx1
  have key : ¬ (origin.x + (array.shape 0 : Int) > (E.size texture).y ∨
        origin.y + (array.shape 1 : Int) > (E.size texture).x) →
      texture_upload_sub_region E texture array origin =
        (.ok (), E.upload_sub_region texture array.data origin
          ⟨(array.shape 0 : Int), (array.shape 1 : Int)⟩) := by
    intro hb
    rw [← t0, ← t1] at hb
    rcases texture_upload_sub_region_cases E texture array origin with h | ⟨hneg, _⟩
    · rw [h.2.2.2.2]
      rw [t0, t1] at hb
      rw [to_int32_of_lt (by omega), to_int32_of_lt (by omega)]
    · exact absurd ⟨hr, hb, hc, hk⟩ hneg
  refine ⟨fun hb => ?_, key, fun hb => ?_⟩
  · rw [← t0, ← t1] at hb
    rcases texture_upload_sub_region_cases E texture array origin with h | ⟨_, e, he⟩
    · exact absurd hb h.2.1
    · exact ⟨e, he⟩
  · rw [key (by omega)]

/-- C3, at a concrete input: a (1, 2, 3) array at origin (1, 2) of the 4 x 2
texture, where both sums equal the texture size, is handed to the engine. -/
theorem texture_upload_sub_region_bounds_witness :
    (texture_upload_sub_region traced sampleTexture sampleRegion ⟨1, 2⟩).1 = .ok () ∧
    ∃ e, texture_upload_sub_region traced sampleTexture sampleRegion ⟨2, 2⟩ =
      (.error e, sampleTexture) :=
  ⟨(texture_upload_sub_region_bounds traced sampleTexture sampleRegion ⟨1, 2⟩
      (by decide) (by decide) (by decide) (by decide) (by decide) (by decide)
      (by decide)).2.2 (by decide),
   (texture_upload_sub_region_bounds traced sampleTexture sampleRegion ⟨2, 2⟩
      (by decide) (by decide) (by decide) (by decide) (by decide) (by decide)
      (by decide)).1 (by decide)⟩

/-! ## C5, C6: the shader buffer upload -/

/-- The outcome of `shader_set_buffer`, by the tests of the program. -/
theorem shader_set_buffer_cases {σ : Type} (E : ShaderEngine σ) (shader : σ) (name : String)
    (array : ndarray) :
    (array.ndim > 3 ∧ shader_set_buffer E shader name array =
      (.error (.type_error "Shader::set_buffer(): number of array dimensions must be < 3!"),
        shader)) ∨
    (array.ndim ≤ 3 ∧ interpret_dlpack_dtype array.dtype = .Invalid ∧
      shader_set_buffer E shader name array =
        (.error (.type_error "Shader::set_buffer(): unsupported array dtype!"), shader)) ∨
    (array.ndim ≤ 3 ∧ interpret_dlpack_dtype array.dtype ≠ .Invalid ∧
      shader_set_buffer E shader name array =
        (.ok (), E.set_buffer shader name (interpret_dlpack_dtype array.dtype) array.ndim
          ((List.range 3).map fun i => if i < array.ndim then array.shape i else 1)
          array.data)) := by
  unfold shader_set_buffer
  simp only []
  by_cases h1 : array.ndim > 3
  · left
    exact ⟨h1, by rw [if_pos h1]⟩
  · right
    rw [if_neg h1]
    by_cases h2 : interpret_dlpack_dtype array.dtype = VariableType.Invalid
    · left
      exact ⟨by omega, h2, by rw [if_pos h2]⟩
    · right
      exact ⟨by omega, h2, by rw [if_neg h2]; rfl⟩

/-- C5: `shader_set_buffer` throws if and only if the rank is greater than 3
or the descriptor translates to `Invalid`; a rank greater than 3 raises the
rank error whatever the descriptor; every array of rank at most 3 with a
supported descriptor is accepted, whatever its extents. -/
theorem shader_set_buffer_rejects_iff {σ : Type} (E : ShaderEngine σ) (shader : σ)
    (name : String) (array : ndarray) :
    ((∃ e, (shader_set_buffer E shader name array).1 = .error e) ↔
      (array.ndim > 3 ∨ interpret_dlpack_dtype array.dtype = .Invalid)) ∧
    (array.ndim > 3 →
      (shader_set_buffer E shader name array).1 =
        .error (.type_error "Shader::set_buffer(): number of array dimensions must be < 3!")) ∧
    (array.ndim ≤ 3 → interpret_dlpack_dtype array.dtype ≠ .Invalid →
      (shader_set_buffer E shader name array).1 = .ok ()) := by
  rcases shader_set_buffer_cases E shader name array with h | h | h
  · obtain ⟨h1, h2⟩ := h
    rw [h2]
    exact ⟨⟨fun _ => Or.inl h1, fun _ => ⟨_, rfl⟩⟩, fun _ => rfl, fun h3 => by omega⟩
  · obtain ⟨h1, h2, h3⟩ := h
    rw [h3]
    exact ⟨⟨fun _ => Or.inr h2, fun _ => ⟨_, rfl⟩⟩, fun h4 => by omega,
      fun _ h4 => absurd h2 h4⟩
  · obtain ⟨h1, h2, h3⟩ := h
    rw [h3]
    refine ⟨⟨fun ⟨e, he⟩ => ?_, fun h4 => ?_⟩, fun h4 => by omega, fun _ _ => rfl⟩
    · exact absurd he (by simp)
    · rcases h4 with h4 | h4
      · omega
      · exact absurd h4 h2

/-- C5, at concrete inputs: a rank-4 array with an unsupported descriptor
raises the rank error; a rank-0 `float` array is accepted. -/
theorem shader_set_buffer_rejects_iff_witness :
    (shader_set_buffer tracedShader [] "position"
        ⟨⟨dtype_code.Bool, 8, 1⟩, [1, 1, 1, 1], [7]⟩).1 =
      .error (.type_error "Shader::set_buffer(): number of array dimensions must be < 3!") ∧
    (shader_set_buffer tracedShader [] "position" ⟨nb_dtype .float, [], [0, 0, 0, 0]⟩).1 =
      .ok () :=
  ⟨(shader_set_buffer_rejects_iff tracedShader [] "position" _).2.1 (by decide),
   (shader_set_buffer_rejects_iff tracedShader [] "position" _).2.2 (by decide) (by decide)⟩

/-- C6: an accepted `shader_set_buffer` call on an array of rank `r ≤ 3` hands
the engine the same slot name, the translated scalar kind, the rank `r`, the
three extents `d` with `d[i] = shape(i)` for `i < r` and `d[i] = 1` for
`i ≥ r`, and the array's data. -/
theorem shader_set_buffer_forwards {σ : Type} (E : ShaderEngine σ) (shader : σ)
    (name : String) (array : ndarray)
    (hr : array.ndim ≤ 3) (hk : interpret_dlpack_dtype array.dtype ≠ .Invalid) :
    shader_set_buffer E shader name array =
      (.ok (), E.set_buffer shader name (interpret_dlpack_dtype array.dtype) array.ndim
        ((List.range 3).map fun i => if i < array.ndim then array.shape i else 1)
        array.data) := by
  rcases shader_set_buffer_cases E shader name array with h | h | h
  · omega
  · exact absurd h.2.1 hk
  · exact h.2.2

/-- C6, at concrete inputs: a rank-0 `float` array reaches the engine with
extents (1, 1, 1), a rank-2 array of shape (5, 2) with extents (5, 2, 1). -/
theorem shader_set_buffer_forwards_witness :
    shader_set_buffer tracedShader [] "position" ⟨nb_dtype .float, [], [0, 0, 0, 0]⟩ =
      (.ok (), [⟨"position", .Float32, 0, [1, 1, 1], [0, 0, 0, 0]⟩]) ∧
    shader_set_buffer tracedShader [] "indices" ⟨nb_dtype .uint32_t, [5, 2], []⟩ =
      (.ok (), [⟨"indices", .UInt32, 2, [5, 2, 1], []⟩]) :=
  ⟨shader_set_buffer_forwards tracedShader [] "position" ⟨nb_dtype .float, [], [0, 0, 0, 0]⟩
      (by decide) (by decide),
   shader_set_buffer_forwards tracedShader [] "indices" ⟨nb_dtype .uint32_t, [5, 2], []⟩
      (by decide) (by decide)⟩

/-! ## C7: the download -/

theorem mul64_of_lt {a b : Nat} (h : a * b < 2 ^ 64) : mul64 a b = a * b := by
  unfold mul64 SIZE_MOD
  exact Nat.mod_eq_of_lt h

theorem download_dtype_bits (f : ComponentFormat) : (download_dtype f).bits = component_bits f := by
  cases f <;> rfl

theorem download_dtype_code (f : ComponentFormat) : (download_dtype f).code = component_code f := by
  cases f <;> rfl

theorem component_bits_pos (f : ComponentFormat) : 0 < component_bits f := by
  cases f <;> decide

theorem component_bits_dvd (f : ComponentFormat) : 8 ∣ component_bits f := by
  cases f <;> decide

/-- C7: for a texture of component format `X` whose size in bits fits a
`size_t`, `texture_download` returns a rank-3 array of shape (height, width,
channels) whose descriptor has the type code of `X` (signed integer, unsigned
integer or float) and the bit width of `X` (16 for Float16, with the float
code), filled by the engine's read-back, and it allocates exactly
`height * width * channels * bits(X) / 8` bytes, the division leaving no
remainder. -/
theorem texture_download_result {τ : Type} (E : TextureEngine τ) (texture : τ)
    (hw : E.extent_ok texture)
    (hfit : (E.size texture).y.toNat * (E.size texture).x.toNat * E.channels texture *
      component_bits (E.component_format texture) < 2 ^ 64) :
    (texture_download E texture).array.ndim = 3 ∧
    (texture_download E texture).array.shape_ =
      [(E.size texture).y.toNat, (E.size texture).x.toNat, E.channels texture] ∧
    (texture_download E texture).array.dtype.code =
      component_code (E.component_format texture) ∧
    (texture_download E texture).array.dtype.bits =
      component_bits (E.component_format texture) ∧
    (texture_download E texture).array.data = E.download texture ∧
    (texture_download E texture).allocated =
      (E.size texture).y.toNat * (E.size texture).x.toNat * E.channels texture *
        component_bits (E.component_format texture) / 8 ∧
    ((E.size texture).y.toNat * (E.size texture).x.toNat * E.channels texture *
        component_bits (E.component_format texture)) % 8 = 0 := by
  obtain ⟨⟨hx0, hx1⟩, ⟨hy0, hy1⟩⟩ := extent_ok_bounds hw
  have ey := to_size_t_of_nonneg hy0 (by omega : (E.size texture).y < 2 ^ 64)
  have ex := to_size_t_of_nonneg hx0 (by omega : (E.size texture).x < 2 ^ 64)
  have hb := component_bits_pos (E.component_format texture)
  have h3 : (E.size texture).y.toNat * (E.size texture).x.toNat * E.channels texture < 2 ^ 64 :=
    lt_of_le_of_lt (Nat.le_mul_of_pos_right _ hb) hfit
  have h2 : (E.size texture).y.toNat * (E.size texture).x.toNat < 2 ^ 64 := by
    have hy2 : (E.size texture).y.toNat < 2 ^ 31 := by omega
    have hx2 : (E.size texture).x.toNat < 2 ^ 31 := by omega
    calc (E.size texture).y.toNat * (E.size texture).x.toNat
        < 2 ^ 31 * 2 ^ 31 := Nat.mul_lt_mul'' hy2 hx2
      _ < 2 ^ 64 := by norm_num
  refine ⟨rfl, ?_, download_dtype_code _, download_dtype_bits _, rfl, ?_, ?_⟩
  · simp only [texture_download, ey, ex]
  · simp only [texture_download, ey, ex, List.getD_cons_zero, List.getD_cons_succ,
      download_dtype_bits]
    rw [mul64_of_lt h2, mul64_of_lt h3, mul64_of_lt hfit]
  · exact Nat.mod_eq_zero_of_dvd (Dvd.dvd.mul_left (component_bits_dvd _) _)

/-- C7, at a concrete input: the download of the 3 x 2 four-channel Float16
texture allocates 48 bytes and declares the float code with 16 bits. -/
theorem texture_download_result_witness :
    (texture_download traced halfTexture).allocated = 48 ∧
    (texture_download traced halfTexture).array.dtype.code =
      dtype_code.Float ∧
    (texture_download traced halfTexture).array.dtype.bits = 16 ∧
    (texture_download traced halfTexture).array.shape_ = [2, 3, 4] :=
  have h := texture_download_result traced halfTexture (by decide) (by decide)
  ⟨h.2.2.2.2.2.1, h.2.2.1, h.2.2.2.1, h.2.1⟩

/-! ## C8: a rejected call leaves the engine object untouched -/

/-- C8: for each of `shader_set_buffer`, `texture_upload` and
`texture_upload_sub_region`, over every engine and every input, a call that
throws leaves the shader or texture in the state it had before the call: no
engine mutator has run. -/
theorem rejection_is_atomic {σ τ : Type} (S : ShaderEngine σ) (E : TextureEngine τ)
    (shader : σ) (texture : τ) (name : String) (array : ndarray) (origin : Vector2i) :
    (∀ e, (shader_set_buffer S shader name array).1 = .error e →
      (shader_set_buffer S shader name array).2 = shader) ∧
    (∀ e, (texture_upload E texture array).1 = .error e →
      (texture_upload E texture array).2 = texture) ∧
    (∀ e, (texture_upload_sub_region E texture array origin).1 = .error e →
      (texture_upload_sub_region E texture array origin).2 = texture) := by
  refine ⟨fun e he => ?_, fun e he => ?_, fun e he => ?_⟩
  · rcases shader_set_buffer_cases S shader name array with h | h | h
    · rw [h.2]
    · rw [h.2.2]
    · rw [h.2.2] at he
      exact absurd he (by simp)
  · rcases texture_upload_cases E texture array with h | ⟨_, e2, h⟩
    · rw [h.2.2.2.2.2] at he
      exact absurd he (by simp)
    · rw [h]
  · rcases texture_upload_sub_region_cases E texture array origin with h | ⟨_, e2, h⟩
    · rw [h.2.2.2.2] at he
      exact absurd he (by simp)
    · rw [h]

/-- C8, at concrete inputs on the recording engines: a rank-4 array, an `int8`
array for the UInt8 texture, and a region beyond the texture are rejected, and
the list of mutator calls is as before. -/
theorem rejection_is_atomic_witness :
    (shader_set_buffer tracedShader [] "position"
        ⟨nb_dtype .float, [1, 1, 1, 1], [0, 0, 0, 0]⟩).2 = [] ∧
    (texture_upload traced sampleTexture { sampleArray with dtype := nb_dtype .int8_t }).2 =
      sampleTexture ∧
    (texture_upload_sub_region traced sampleTexture sampleRegion ⟨2, 2⟩).2 = sampleTexture :=
  have h := rejection_is_atomic tracedShader traced [] sampleTexture "position"
  ⟨(h ⟨nb_dtype .float, [1, 1, 1, 1], [0, 0, 0, 0]⟩ ⟨0, 0⟩).1
     (.type_error "Shader::set_buffer(): number of array dimensions must be < 3!")
     (by decide),
   (h { sampleArray with dtype := nb_dtype .int8_t } ⟨0, 0⟩).2.1
     (.runtime_error
       "Texture::upload(): dtype of array (int8) does not match the texture (uint8)!")
     (by decide),
   (h sampleRegion ⟨2, 2⟩).2.2
     (.runtime_error "Texture::upload_sub_region(): bounds exceed the size of the texture!")
     (by decide)⟩

/-! ## C9: the round trip -/

/-- The array returned by `texture_download` passes the four tests of
`texture_upload` on the same texture, over every engine. -/
theorem texture_upload_download_accepted {τ : Type} (E : TextureEngine τ) (texture : τ) :
    texture_upload E texture (texture_download E texture).array =
      (.ok (), E.upload texture (E.download texture)) := by
  have hk : interpret_dlpack_dtype (download_dtype (E.component_format texture)) =
      (E.component_format texture).toVariableType := by
    cases E.component_format texture <;> rfl
  rcases texture_upload_cases E texture (texture_download E texture).array with h | ⟨hn, _⟩
  · exact h.2.2.2.2.2
  · exact absurd ⟨Or.inr rfl, rfl, rfl, rfl, hk⟩ hn

/-- C9: for every texture of the byte store, whatever its component format
(Float16 included), the array returned by `texture_download` has rank 3 and the
extents (height, width, channels), its descriptor translates back to the
texture's component format, `texture_upload` accepts it on the same texture,
and the texture after the upload is the texture before the download, byte for
byte. -/
theorem upload_download_round_trip
    (blit : Texture → Bytes → Vector2i → Vector2i → Texture) (t : Texture) :
    (texture_download (byteStore blit) t).array.ndim = 3 ∧
    (texture_download (byteStore blit) t).array.shape_ =
      [to_size_t t.size.y, to_size_t t.size.x, t.channels] ∧
    interpret_dlpack_dtype (texture_download (byteStore blit) t).array.dtype =
      t.component_format.toVariableType ∧
    (texture_download (byteStore blit) t).array.data = t.contents ∧
    texture_upload (byteStore blit) t (texture_download (byteStore blit) t).array =
      (.ok (), t) := by
  refine ⟨rfl, rfl, ?_, rfl, ?_⟩
  · show interpret_dlpack_dtype (download_dtype t.component_format) = _
    cases t.component_format <;> rfl
  · rw [texture_upload_download_accepted]
    rfl

/-! ## C4, C10: the rectangle handed to the engine by the sub-region upload -/

/-- C4, evaluated: on the texture 10 wide and 2 high, the single pixel at
origin (1, 9) passes every test, and the engine receives origin (1, 9) and
extent (1, 1): with `y` the vertical axis of `size()`, as in `texture_upload`,
the rectangle ends at row 10 of a texture 2 rows high, both for the extent
handed to the engine (`origin.y + extent.y`) and for the rows of the array
(`origin.y + rows`). -/
theorem texture_upload_sub_region_outside_texture :
    texture_upload_sub_region traced wideTexture onePixel ⟨1, 9⟩ =
      (.ok (), { wideTexture with
        calls := [.upload_sub_region onePixel.data ⟨1, 9⟩ ⟨1, 1⟩] }) ∧
    (traced.size wideTexture).y < (9 : Int) + to_int32 (onePixel.shape 1) ∧
    (traced.size wideTexture).y < (9 : Int) + (onePixel.shape 0 : Int) := by
  decide

/-- C10, evaluated: on the texture 10 wide and 2 high, the single pixel at
origin (-1, 0) passes every test: `(size_t) -1` plus the extent 1 wraps to 0,
and the engine receives the negative origin. -/
theorem texture_upload_sub_region_negative_origin :
    texture_upload_sub_region traced wideTexture onePixel ⟨-1, 0⟩ =
      (.ok (), { wideTexture with
        calls := [.upload_sub_region onePixel.data ⟨-1, 0⟩ ⟨1, 1⟩] }) := by
  decide

end Render
